import Mathlib

/-!
Shallow embedding of the buzzinsights backend pipeline (TypeScript + Prisma)
and proofs about its specified properties.

The embedding follows the source files:
- prisma/schema.prisma                (data model)
- src/queues/ingestion.queue.ts       (post/comment upsert)
- src/queues/categorization.queue.ts and the BullMQ categorization worker
                                      (batch classification, noise policy,
                                       error counting, bucket suggestions)
- src/queues/pineconeIngestion.queue.ts (notification workers, thresholds,
                                       comment growth rate)
- src/routes/metrics.routes.ts and the windowed metrics route
                                      (percentage change computations)

Machine numbers are modelled as Int/Nat, JS floats as rationals, timestamps
as integers (milliseconds or seconds as in the corresponding code path).
-/

attribute [local semireducible] Rat.add Rat.mul Rat.sub Rat.inv

namespace BuzzInsights

/-! ## Data model (prisma/schema.prisma) -/

/-- RedditPost row. `sentimentScore` (JS float) is modelled as a rational,
`createdUtc`/`lastUpdated` (BigInt epoch seconds) as integers. The
many-to-many `buckets` relation is carried as the list of bucket ids this
post is connected to. -/
structure RedditPost where
  id : String
  title : String
  content : String
  author : String
  createdUtc : Int
  score : Int
  numComments : Nat
  lastUpdated : Int
  needsProcessing : Bool
  processingPriority : Nat
  category : Option String
  product : Option String
  sameIssuesCount : Int
  sameDeviceCount : Int
  solutionsCount : Int
  updateIssueMention : Int
  updateResolvedMention : Int
  authorProfilePhoto : Option String
  imageUrl : Option String
  orgId : Option String
  thumbnail : Option String
  userId : Option String
  permalink : Option String
  sentimentCategory : Option String
  sentimentScore : Option ℚ
  buckets : List String
  addedToBucketByAI : Bool
deriving DecidableEq, Repr

/-- RedditComment row. -/
structure RedditComment where
  id : String
  postId : String
  parentCommentId : Option String
  author : String
  content : String
  createdUtc : Int
  score : Int
  lastUpdated : Int
deriving DecidableEq, Repr

/-- Preferences row: per-tenant notification and pipeline configuration. -/
structure Preferences where
  id : Nat
  userId : Option String
  orgId : Option String
  ingestionActive : Bool
  commentGrowthThreshold : ℚ
  emails : List String
  enabled : Bool
  issueThreshold : Int
  lastNotified : Option Int
  sentimentThreshold : ℚ
  timeWindow : Int
  triggerCategorization : Bool
  volumeThresholdMultiplier : ℚ
deriving DecidableEq, Repr

/-- NotificationHistory row (append-only audit of sent alerts). -/
structure NotificationRecord where
  userId : Option String
  orgId : Option String
  postIds : List String
  category : String
  product : Option String
  issueCount : Nat
  emailsSentTo : List String
deriving DecidableEq, Repr

/-- FeedbackCategory row, restricted to the fields selected by the
categorization workers. -/
structure FeedbackCategory where
  name : String
  description : Option String
  keywords : List String
deriving DecidableEq, Repr

/-- ProductCategory row, restricted to the fields selected by the
categorization workers. -/
structure ProductCategory where
  id : Nat
  name : String
  keywords : List String
  versions : List String
deriving DecidableEq, Repr

/-- Tenant identity: jobs are keyed by `isOrg ? { orgId: targetId } :
{ userId: targetId }`. -/
inductive Target
  | user (id : String)
  | org (id : String)
deriving DecidableEq, Repr

/-- Tenant filter used in every `where` clause of the pipeline. -/
def matchesTarget (p : RedditPost) : Target → Bool
  | .user uid => p.userId = some uid
  | .org oid => p.orgId = some oid

/-! ## Classifier results (categorization worker, part of the BullMQ
categorization queue file) -/

/-- One bucket suggestion returned by the classifier for a post. -/
structure BucketSuggestion where
  bucketId : String
  confidence : ℚ
deriving DecidableEq, Repr

/-- Per-item structured classifier result, as consumed by the
categorization worker when applying a batch. -/
structure ClassResult where
  id : String
  product : String
  category : String
  sameIssuesCount : Int
  sameDeviceCount : Int
  solutionsCount : Int
  updateIssueMention : Int
  updateResolvedMention : Int
  sentimentScore : ℚ
  sentimentCategory : String
  bucketSuggestions : List BucketSuggestion
deriving DecidableEq, Repr

/-- Bucket ids accepted from a suggestion list: the worker keeps exactly the
suggestions whose confidence is strictly greater than 0.6
(`.filter(s => s.confidence > 0.6)`). -/
def acceptedBuckets (suggestions : List BucketSuggestion) : List String :=
  (suggestions.filter (fun s => (6 : ℚ)/10 < s.confidence)).map BucketSuggestion.bucketId

/-- Effect of one `prisma.redditPost.update` inside the classification
transaction: set classification outputs, clear `needsProcessing`, connect the
accepted bucket suggestions (prisma `connect` adds links and never removes
any), and set `addedToBucketByAI` to whether some suggestion cleared the
threshold. -/
def applyResult (p : RedditPost) (r : ClassResult) : RedditPost :=
  { p with
    product := some r.product
    category := some r.category
    sameIssuesCount := r.sameIssuesCount
    sameDeviceCount := r.sameDeviceCount
    solutionsCount := r.solutionsCount
    updateIssueMention := r.updateIssueMention
    updateResolvedMention := r.updateResolvedMention
    needsProcessing := false
    sentimentScore := some r.sentimentScore
    sentimentCategory := some r.sentimentCategory
    buckets := p.buckets ++ (acceptedBuckets r.bucketSuggestions).filter (fun b => b ∉ p.buckets)
    addedToBucketByAI := r.bucketSuggestions.any (fun s => decide ((6 : ℚ)/10 < s.confidence)) }

/-- The transaction applying one batch of classifier results: one update per
result, keyed by the result id, executed in order. -/
def applyBatch (store : List RedditPost) (results : List ClassResult) : List RedditPost :=
  results.foldl
    (fun st r => st.map (fun p => if p.id = r.id then applyResult p r else p))
    store

/-- The `updateMany` run by the catch branch of a failed batch: increment
`processingPriority` by one for every post whose id is in the batch. -/
def incrementPriority (store : List RedditPost) (batch : List String) : List RedditPost :=
  store.map (fun p =>
    if p.id ∈ batch then { p with processingPriority := p.processingPriority + 1 } else p)

/-- Outcome of one batch attempt: either the classifier call and the result
transaction both succeed with these parsed results, or the classifier call,
the response parsing or the all-or-nothing result transaction throws, in
which case no update of the batch was applied (the transaction is atomic). -/
inductive BatchOutcome
  | ok (results : List ClassResult)
  | err
deriving DecidableEq, Repr

def isFailedOutcome : BatchOutcome → Bool
  | .ok _ => false
  | .err => true

/-- Mutable state threaded through the categorization batch loop. -/
structure RunState where
  store : List RedditPost
  processedCount : Nat
  errorCount : Nat
  classifierCalls : Nat
deriving DecidableEq, Repr

inductive RunStatus
  | completed
  | aborted
deriving DecidableEq, Repr

/-- The batch loop of the categorization worker: each step invokes the
classifier once; on success the results are applied in one transaction; on
failure, priorities of the batch are incremented and `errorCount` is bumped,
and when it reaches 3 the job throws a hard error. `errorCount` is never
reset on success. -/
def runBatchesAux : List (List String × BatchOutcome) → RunState → RunState × RunStatus
  | [], st => (st, .completed)
  | (batch, .ok results) :: rest, st =>
      runBatchesAux rest
        { st with
          store := applyBatch st.store results
          processedCount := st.processedCount + batch.length
          classifierCalls := st.classifierCalls + 1 }
  | (batch, .err) :: rest, st =>
      let st' : RunState :=
        { st with
          store := incrementPriority st.store batch
          errorCount := st.errorCount + 1
          classifierCalls := st.classifierCalls + 1 }
      if st'.errorCount ≥ 3 then (st', .aborted) else runBatchesAux rest st'

def countFailures (plan : List (List String × BatchOutcome)) : Nat :=
  (plan.map Prod.snd).countP isFailedOutcome

/-- Decides whether some three consecutive entries of the outcome list are
all failures. -/
def threeConsecutiveFailures : List BatchOutcome → Bool
  | .err :: .err :: .err :: _ => true
  | _ :: rest => threeConsecutiveFailures rest
  | [] => false

/-- The zero-categories policy branch: `updateMany` marking every pending
post of the tenant as Noise and processed. -/
def markNoise (store : List RedditPost) (t : Target) : List RedditPost :=
  store.map (fun p =>
    if matchesTarget p t ∧ p.needsProcessing then
      { p with category := some "Noise", product := some "Noise", needsProcessing := false }
    else p)

/-- Selection order of pending posts:
`orderBy: [{ processingPriority: "asc" }, { createdUtc: "asc" }]`. -/
def pendingBefore (p q : RedditPost) : Bool :=
  if p.processingPriority = q.processingPriority then decide (p.createdUtc ≤ q.createdUtc)
  else decide (p.processingPriority < q.processingPriority)

def insertSortedPost (le : RedditPost → RedditPost → Bool) (p : RedditPost) :
    List RedditPost → List RedditPost
  | [] => [p]
  | q :: qs => if le p q then p :: q :: qs else q :: insertSortedPost le p qs

def sortPosts (le : RedditPost → RedditPost → Bool) (l : List RedditPost) : List RedditPost :=
  l.foldr (insertSortedPost le) []

/-- Pending posts of the tenant in classification order. -/
def selectPending (store : List RedditPost) (t : Target) : List RedditPost :=
  sortPosts pendingBefore (store.filter (fun p => matchesTarget p t && p.needsProcessing))

/-- Batches of `BATCH_SIZE = 10`, as sliced by the worker loop. -/
def chunks10 : List RedditPost → List (List RedditPost)
  | [] => []
  | p :: ps => ((p :: ps).take 10) :: chunks10 ((p :: ps).drop 10)
termination_by l => l.length
decreasing_by simp [List.length_drop]; omega

/-- Successful return value of a categorization run. -/
structure RunOutput where
  store : List RedditPost
  statusTag : String
  classifierCalls : Nat
deriving DecidableEq, Repr

/-- One categorization job run. The batch outcomes (success with parsed
results, or a thrown batch) are an input, standing for the external
classifier and the store transaction. The hard abort after 3 failed batches
is the thrown error of the job. -/
def categorizationRun (store : List RedditPost) (t : Target)
    (feedbackCategories : List FeedbackCategory) (productCategories : List ProductCategory)
    (outcomes : List BatchOutcome) : Except String RunOutput :=
  if feedbackCategories = [] ∧ productCategories = [] then
    .ok { store := markNoise store t, statusTag := "no_categories", classifierCalls := 0 }
  else
    let pending := selectPending store t
    if pending = [] then
      .ok { store := store, statusTag := "no_posts", classifierCalls := 0 }
    else
      let plan := (chunks10 pending).map (List.map RedditPost.id) |>.zip outcomes
      let result := runBatchesAux plan { store := store, processedCount := 0, errorCount := 0, classifierCalls := 0 }
      match result.2 with
      | .aborted => .error "Too many batch processing errors, stopping job"
      | .completed =>
          .ok { store := result.1.store, statusTag := "completed", classifierCalls := result.1.classifierCalls }

/-! ## Content upsert engine (src/queues/ingestion.queue.ts) -/

/-- Value found in `post.author.icon_img`: the sanitizer accepts a string, or
an object carrying a `url`, and maps anything else to null. -/
inductive IconValue
  | str (v : String)
  | objWithUrl (url : String)
  | objNoUrl
  | nullValue
deriving DecidableEq, Repr

def sanitizeAuthorProfilePhoto : IconValue → Option String
  | .str v => some v
  | .objWithUrl u => some u
  | .objNoUrl => none
  | .nullValue => none

/-- Test used for `imageUrl`: the regex checks for a `.jpg|.jpeg|.png|.gif`
suffix. -/
def isImageUrl (url : String) : Bool :=
  url.endsWith ".jpg" || url.endsWith ".jpeg" || url.endsWith ".png" || url.endsWith ".gif"

/-- Normalized fetched post (`RedditPostData`). -/
structure RedditPostData where
  id : String
  title : String
  selftext : String
  authorName : String
  authorIcon : IconValue
  thumbnail : Option String
  url : String
  permalink : String
  created_utc : Int
  score : Int
  num_comments : Nat
deriving DecidableEq, Repr

/-- Normalized fetched comment (`RedditCommentData`), with `parent_id`
already mapped through the `t1_` prefix handling. -/
structure RedditCommentData where
  id : String
  parent_id : Option String
  authorName : String
  body : String
  created_utc : Int
  score : Int
deriving DecidableEq, Repr

/-- Mapping of a raw comment `parent_id`: keep it (without the kind tag)
when it names another comment (`t1_`), else null. -/
def commentParentId (raw : String) : Option String :=
  if raw.startsWith "t1_" then some (raw.drop 3) else none

/-- The `prisma.redditPost.upsert` of `saveAndProcessPost`. Both branches
write every fetched field; the update branch additionally resets the
classification outputs and the processing state, and leaves only the fields
the ingestion payload does not carry (labels, buckets, `addedToBucketByAI`)
untouched. -/
def upsertPost (store : List RedditPost) (post : RedditPostData)
    (userId : String) (orgId : Option String) (nowSec : Int) : List RedditPost :=
  if store.any (fun q => q.id = post.id) then
    store.map (fun q =>
      if q.id = post.id then
        { q with
          title := post.title
          content := post.selftext
          author := post.authorName
          authorProfilePhoto := sanitizeAuthorProfilePhoto post.authorIcon
          thumbnail := post.thumbnail
          imageUrl := if isImageUrl post.url then some post.url else none
          permalink := some post.permalink
          createdUtc := post.created_utc
          score := post.score
          numComments := post.num_comments
          lastUpdated := nowSec
          needsProcessing := true
          processingPriority := 0
          sentimentScore := none
          sentimentCategory := none
          category := none
          product := none
          sameIssuesCount := 0
          sameDeviceCount := 0
          solutionsCount := 0
          updateIssueMention := 0
          updateResolvedMention := 0
          userId := some userId
          orgId := orgId }
      else q)
  else
    store ++ [{
      id := post.id
      title := post.title
      content := post.selftext
      author := post.authorName
      createdUtc := post.created_utc
      score := post.score
      numComments := post.num_comments
      lastUpdated := nowSec
      needsProcessing := true
      processingPriority := 0
      category := none
      product := none
      sameIssuesCount := 0
      sameDeviceCount := 0
      solutionsCount := 0
      updateIssueMention := 0
      updateResolvedMention := 0
      authorProfilePhoto := sanitizeAuthorProfilePhoto post.authorIcon
      imageUrl := if isImageUrl post.url then some post.url else none
      orgId := orgId
      thumbnail := post.thumbnail
      userId := some userId
      permalink := some post.permalink
      sentimentCategory := none
      sentimentScore := none
      buckets := []
      addedToBucketByAI := false }]

/-- The `prisma.redditComment.upsert` of `processComments`: the update
branch refreshes only `score` and `lastUpdated`; the create branch writes
the whole row. -/
def upsertComment (store : List RedditComment) (postId : String)
    (c : RedditCommentData) (nowSec : Int) : List RedditComment :=
  if store.any (fun q => q.id = c.id) then
    store.map (fun q =>
      if q.id = c.id then { q with score := c.score, lastUpdated := nowSec } else q)
  else
    store ++ [{
      id := c.id
      postId := postId
      parentCommentId := c.parent_id
      author := c.authorName
      content := c.body
      createdUtc := c.created_utc
      score := c.score
      lastUpdated := nowSec }]

/-! ## Threshold alerting (src/queues/pineconeIngestion.queue.ts) -/

/-- JS `value || "default"` on a nullable string: both null and the empty
string fall back to the default. -/
def stringOrDefault (s : Option String) (d : String) : String :=
  match s with
  | some v => if v = "" then d else v
  | none => d

/-- Category key used when grouping posts: `post.category || "uncategorized"`. -/
def postCategoryKey (p : RedditPost) : String :=
  stringOrDefault p.category "uncategorized"

def sumNumComments (posts : List RedditPost) : Nat :=
  (posts.map RedditPost.numComments).sum

def sumSentiment (posts : List RedditPost) : ℚ :=
  (posts.map (fun p => p.sentimentScore.getD 0)).sum

/-- Average sentiment of a group (`reduce(...)/length`); the empty-group
division never occurs on the call sites that group by key. -/
def avgSentimentOf (posts : List RedditPost) : ℚ :=
  sumSentiment posts / posts.length

/-- Volume trigger of `checkThresholds`: category post count at least
`issueThreshold`. -/
def categoryVolumeExceeded (categoryPosts : List RedditPost) (preferences : Preferences) : Bool :=
  decide ((categoryPosts.length : Int) ≥ preferences.issueThreshold)

/-- Sentiment trigger of `checkThresholds`: category average sentiment at
most `sentimentThreshold`. -/
def categorySentimentExceeded (categoryPosts : List RedditPost) (preferences : Preferences) : Bool :=
  decide (avgSentimentOf categoryPosts ≤ preferences.sentimentThreshold)

/-- Comment growth trigger of `checkThresholds`: the absolute total comment
count of the category, compared directly against `commentGrowthThreshold`. -/
def categoryCommentGrowthExceeded (categoryPosts : List RedditPost) (preferences : Preferences) : Bool :=
  decide ((sumNumComments categoryPosts : ℚ) ≥ preferences.commentGrowthThreshold)

/-- The `checkThresholds` helper: group the fetched posts by category and
report whether any category trips any of the three triggers. -/
def checkThresholds (posts : List RedditPost) (preferences : Preferences) : Bool :=
  ((posts.map postCategoryKey).dedup).any (fun cat =>
    let categoryPosts := posts.filter (fun p => postCategoryKey p == cat)
    categoryVolumeExceeded categoryPosts preferences ||
    categorySentimentExceeded categoryPosts preferences ||
    categoryCommentGrowthExceeded categoryPosts preferences)

/-- Tenant-visible notification state: the Preferences row plus the
append-only NotificationHistory table. -/
structure TenantState where
  preferences : Preferences
  history : List NotificationRecord
deriving DecidableEq, Repr

/-- Cooldown window in milliseconds:
`preferences.timeWindow * 60 * 60 * 1000`. -/
def preferencesWindowMs (preferences : Preferences) : Int :=
  preferences.timeWindow * 60 * 60 * 1000

/-- Default applied to a missing `lastNotified`:
`preferences.lastNotified || new Date(0)`. -/
def lastNotifiedDefault (preferences : Preferences) : Int :=
  (preferences.lastNotified).getD 0

/-- Posts the notification worker fetches for the window: tenant posts with
`createdUtc >= BigInt(Math.floor(windowStart.getTime() / 1000))`, ordered by
`numComments` descending. -/
def workerWindowPosts (preferences : Preferences) (tenantPosts : List RedditPost)
    (nowMs : Int) : List RedditPost :=
  let windowStartMs := nowMs - preferencesWindowMs preferences
  sortPosts (fun p q => decide (q.numComments ≤ p.numComments))
    (tenantPosts.filter (fun p => decide (p.createdUtc ≥ Int.fdiv windowStartMs 1000)))

/-- NotificationHistory row written by the notification worker. -/
def workerNotificationRecord (preferences : Preferences) (posts : List RedditPost) :
    NotificationRecord :=
  { userId := preferences.userId
    orgId := preferences.orgId
    postIds := posts.map RedditPost.id
    category := "all"
    product := none
    issueCount := posts.length
    emailsSentTo := preferences.emails }

/-- Primitive store writes issued by the TRIGGERED branch of the
notification worker, in program order. They are separate awaited calls, not a
transaction. -/
inductive StoreWrite
  | appendHistory (r : NotificationRecord)
  | setLastNotified (t : Int)
deriving DecidableEq, Repr

def applyWrite (s : TenantState) : StoreWrite → TenantState
  | .appendHistory r => { s with history := s.history ++ [r] }
  | .setLastNotified t =>
      { s with preferences := { s.preferences with lastNotified := some t } }

def applyWrites (s : TenantState) (ws : List StoreWrite) : TenantState :=
  ws.foldl applyWrite s

/-- Store writes of one send: append the NotificationHistory row, then set
`lastNotified` to the evaluation time. -/
def notificationCommitWrites (preferences : Preferences) (windowPosts : List RedditPost)
    (nowMs : Int) : List StoreWrite :=
  [ .appendHistory (workerNotificationRecord preferences windowPosts),
    .setLastNotified nowMs ]

/-- One tick of the notification worker (the BullMQ `notificationWorker`):
skip when disabled or without recipients, skip while the cooldown window has
not elapsed, skip when no threshold fires; otherwise send and record. Returns
the new state and whether a notification was sent. -/
def notificationWorkerTick (s : TenantState) (tenantPosts : List RedditPost)
    (nowMs : Int) : TenantState × Bool :=
  let preferences := s.preferences
  if preferences.enabled = false ∨ preferences.emails = [] then (s, false)
  else if nowMs - lastNotifiedDefault preferences < preferencesWindowMs preferences then
    (s, false)
  else
    let posts := workerWindowPosts preferences tenantPosts nowMs
    if checkThresholds posts preferences then
      (applyWrites s (notificationCommitWrites preferences posts nowMs), true)
    else (s, false)

/-- A sequence of scheduled ticks, each given the tenant posts visible at
that time; returns the final state and the times at which notifications were
sent, in order. -/
def notificationWorkerRun (s : TenantState) :
    List (Int × List RedditPost) → TenantState × List Int
  | [] => (s, [])
  | (nowMs, tenantPosts) :: rest =>
      let step := notificationWorkerTick s tenantPosts nowMs
      let tail := notificationWorkerRun step.1 rest
      (tail.1, if step.2 then nowMs :: tail.2 else tail.2)

/-! ## Notification job processor (the `notification-job` handler in
src/queues/pineconeIngestion.queue.ts) -/

/-- Comment growth rate: `previous === 0 ? (current > 0 ? Infinity : 0)
: current / previous`. The JS Infinity is modelled explicitly. -/
inductive GrowthRate
  | finite (value : ℚ)
  | infinite
deriving DecidableEq, Repr

def calculateCommentGrowthRate (current previous : ℚ) : GrowthRate :=
  if previous = 0 then (if current > 0 then .infinite else .finite 0)
  else .finite (current / previous)

/-- Comparison `rate >= threshold` with Infinity above every float. -/
def growthRateAtLeast (g : GrowthRate) (threshold : ℚ) : Bool :=
  match g with
  | .infinite => true
  | .finite v => decide (v ≥ threshold)

/-- Claimed single definition of the comment-growth trigger, modelled from
the spec sentence: ratio-based growth against the previous window when
previous-window data exists, else the absolute count. Used only to compare
the two code paths against the claim. -/
def specCommentGrowthTrigger (current previous : ℚ) (threshold : ℚ) : Bool :=
  if previous > 0 then decide (current / previous ≥ threshold)
  else decide (current ≥ threshold)

/-- Serialized per-category trend entry built by `calculateCategoryTrends`. -/
structure CategoryTrend where
  category : String
  currentCount : Nat
  previousCount : Nat
  postIds : List String
deriving DecidableEq, Repr

/-- Grouping keys in first-insertion order, as a JS Map iterates them. -/
def trendKeys (posts : List RedditPost) : List String :=
  posts.foldl (fun acc p => if postCategoryKey p ∈ acc then acc else acc ++ [postCategoryKey p]) []

/-- The `calculateCategoryTrends` helper: one entry per category present in
the current window, with that category's previous-window count (0 when the
category has no previous-window posts). -/
def calculateCategoryTrends (currentPosts previousPosts : List RedditPost) :
    List CategoryTrend :=
  (trendKeys currentPosts).map (fun k =>
    let ps := currentPosts.filter (fun p => postCategoryKey p == k)
    { category := k
      currentCount := ps.length
      previousCount := (previousPosts.filter (fun p => postCategoryKey p == k)).length
      postIds := ps.map RedditPost.id })

/-- WindowMetrics row written by the notification job (the JSON blobs are
kept as structured data). -/
structure WindowMetricsRow where
  userId : Option String
  orgId : Option String
  totalPosts : Nat
  totalComments : Nat
  totalUpvotes : Int
  topTrendingPostIds : List String
  categoryTrendsData : List CategoryTrend
  sentimentAnalysis : ℚ
deriving DecidableEq, Repr

/-- State touched by the notification job processor. -/
structure JobState where
  preferences : Preferences
  history : List NotificationRecord
  windowMetrics : List WindowMetricsRow
deriving DecidableEq, Repr

/-- The `shouldSendNotification` helper: OR of the aggregate comment-growth
trigger, the aggregate sentiment trigger, and the per-category trend trigger
(count at least `issueThreshold` and at least
`previousCount * volumeThresholdMultiplier`). -/
def shouldSendNotification (commentGrowthRate : GrowthRate) (averageSentiment : ℚ)
    (categoryTrends : List CategoryTrend) (settings : Preferences) : Bool :=
  growthRateAtLeast commentGrowthRate settings.commentGrowthThreshold ||
  decide (averageSentiment ≤ settings.sentimentThreshold) ||
  categoryTrends.any (fun trend =>
    decide ((trend.currentCount : Int) ≥ settings.issueThreshold) &&
    decide ((trend.currentCount : ℚ) ≥ (trend.previousCount : ℚ) * settings.volumeThresholdMultiplier))

/-- One run of the `notification-job` processor. It fetches the enabled
settings, computes current- and previous-window posts (epoch seconds),
always appends a WindowMetrics row, and, when `shouldSendNotification`
holds, sends the email, appends a NotificationHistory row and sets
`lastNotified` — with no elapsed-time check against `lastNotified` anywhere
on the path. Returns the new state and whether a notification was sent. -/
def notificationJobTick (s : JobState) (tenantPosts : List RedditPost)
    (nowMs : Int) : JobState × Bool :=
  if s.preferences.enabled = false then (s, false)
  else
    let settings := s.preferences
    let currentTimeSec := Int.fdiv nowMs 1000
    let windowSec := settings.timeWindow * 3600
    let currentPosts := tenantPosts.filter (fun p =>
      decide (p.createdUtc ≥ currentTimeSec - windowSec))
    let previousPosts := tenantPosts.filter (fun p =>
      decide (p.createdUtc ≥ currentTimeSec - 2 * windowSec) &&
      decide (p.createdUtc < currentTimeSec - windowSec))
    let averageSentiment := sumSentiment currentPosts / currentPosts.length
    let commentGrowthRate :=
      calculateCommentGrowthRate (sumNumComments currentPosts) (sumNumComments previousPosts)
    let categoryTrends := calculateCategoryTrends currentPosts previousPosts
    let row : WindowMetricsRow :=
      { userId := settings.userId
        orgId := settings.orgId
        totalPosts := currentPosts.length
        totalComments := sumNumComments currentPosts
        totalUpvotes := (currentPosts.map RedditPost.score).sum
        topTrendingPostIds := (currentPosts.take 5).map RedditPost.id
        categoryTrendsData := categoryTrends
        sentimentAnalysis := averageSentiment }
    let s1 : JobState := { s with windowMetrics := s.windowMetrics ++ [row] }
    if shouldSendNotification commentGrowthRate averageSentiment categoryTrends settings then
      ({ s1 with
          history := s1.history ++ [{
            userId := settings.userId
            orgId := settings.orgId
            postIds := currentPosts.map RedditPost.id
            category := stringOrDefault ((currentPosts.head?).bind RedditPost.category) "uncategorized"
            product := some (stringOrDefault ((currentPosts.head?).bind RedditPost.product) "unknown")
            issueCount := currentPosts.length
            emailsSentTo := settings.emails }]
          preferences := { settings with lastNotified := some nowMs } }, true)
    else (s1, false)

/-! ## Windowed metrics percentage change (src/routes/metrics.routes.ts and
the windowed metrics route) -/

/-- Rounding of `Number(x.toFixed(2))`: to the nearest hundredth, ties
rounding up. -/
def roundTo2 (q : ℚ) : ℚ := (round (q * 100) : Int) / 100

/-- Percentage change of the stored-baseline route (`router.get("/")` in
metrics.routes.ts): `trend.currentCount` is the stored previous-window
count, `totalCount` the stored count plus the new posts; when the stored
count is not positive the route returns 0. -/
def routePercentageChange (storedPreviousCount totalCount : Nat) : ℚ :=
  if 0 < storedPreviousCount then
    roundTo2 ((((totalCount : ℚ) - storedPreviousCount) / storedPreviousCount) * 100)
  else 0

/-- One `topCategories` entry of the stored-baseline route, restricted to
its numeric fields: combined count, stored previous count, and the
percentage change over `totalCount = stored + new`. -/
structure StoredTrendEntry where
  count : Nat
  previousCount : Nat
  percentageChange : ℚ
deriving DecidableEq, Repr

def routeTopCategoryEntry (storedCount newCount : Nat) : StoredTrendEntry :=
  { count := storedCount + newCount
    previousCount := storedCount
    percentageChange := routePercentageChange storedCount (storedCount + newCount) }

/-- Percentage change of the windowed metrics route (`router.get("/new")`):
`previousData.count === 0 ? 100 : ((count - previous) / previous) * 100`. -/
def newRoutePercentageChange (previousCount currentCount : Nat) : ℚ :=
  if previousCount = 0 then 100
  else (((currentCount : ℚ) - previousCount) / previousCount) * 100

/-- One reduce step of the per-category grouping in the windowed metrics
route: posts with a null category are skipped; a known category is counted
up; a new category starts at 1. -/
def categoryCountsStep (acc : List (String × Nat)) (p : RedditPost) : List (String × Nat) :=
  match p.category with
  | none => acc
  | some c =>
      if acc.any (fun e => e.1 == c) then
        acc.map (fun e => if e.1 == c then (e.1, e.2 + 1) else e)
      else acc ++ [(c, 1)]

/-- Per-category counts of a window in the windowed metrics route. Every key
appears with a positive count. -/
def categoryCounts (posts : List RedditPost) : List (String × Nat) :=
  posts.foldl categoryCountsStep []

/-- One `topCategories` entry of the windowed metrics route, restricted to
its numeric fields. -/
structure TopCategoryEntry where
  category : String
  count : Nat
  previousCount : Nat
  percentageChange : ℚ
deriving DecidableEq, Repr

/-- The `topCategories` computation of the windowed metrics route: one entry
per non-Noise category of the current window, with the previous-window count
defaulted to 0 and the percentage change as computed inline. -/
def newRouteTopCategories (currentPosts previousPosts : List RedditPost) :
    List TopCategoryEntry :=
  let cur := categoryCounts currentPosts
  let prev := categoryCounts previousPosts
  (cur.filter (fun e => e.1 ≠ "Noise")).map (fun e =>
    let previousData := ((prev.find? (fun d => d.1 == e.1)).map Prod.snd).getD 0
    { category := e.1
      count := e.2
      previousCount := previousData
      percentageChange := newRoutePercentageChange previousData e.2 })

/-! ## Concrete fixtures used by witnesses and counterexamples -/

/-- A stored, already-classified post of tenant u1, with one manually
created bucket membership. -/
def examplePost : RedditPost :=
  { id := "p1"
    title := "screen flicker"
    content := "the screen flickers"
    author := "alice"
    createdUtc := 100
    score := 3
    numComments := 2
    lastUpdated := 100
    needsProcessing := false
    processingPriority := 2
    category := some "Battery"
    product := some "Laptop"
    sameIssuesCount := 1
    sameDeviceCount := 0
    solutionsCount := 0
    updateIssueMention := 0
    updateResolvedMention := 0
    authorProfilePhoto := none
    imageUrl := none
    orgId := none
    thumbnail := none
    userId := some "u1"
    permalink := some "/r/x/p1"
    sentimentCategory := some "Neutral"
    sentimentScore := some 3
    buckets := ["manual-bucket"]
    addedToBucketByAI := false }

/-- A re-fetch of the same external id with different author and origin
fields. -/
def exampleFetched : RedditPostData :=
  { id := "p1"
    title := "screen flicker again"
    selftext := "still flickering"
    authorName := "bob"
    authorIcon := .nullValue
    thumbnail := none
    url := "https://example.com/p1"
    permalink := "/r/x/p1"
    created_utc := 200
    score := 5
    num_comments := 4 }

/-- A stored comment on post p1. -/
def exampleComment : RedditComment :=
  { id := "c1"
    postId := "p1"
    parentCommentId := none
    author := "carol"
    content := "same here"
    createdUtc := 150
    score := 1
    lastUpdated := 150 }

/-- A re-fetch of the same comment with a new score. -/
def exampleFetchedComment : RedditCommentData :=
  { id := "c1"
    parent_id := none
    authorName := "carol"
    body := "same here"
    created_utc := 150
    score := 7 }

/-- A pending (unclassified) post of tenant u1. -/
def examplePending : RedditPost :=
  { examplePost with
    id := "p2"
    needsProcessing := true
    processingPriority := 0
    category := none
    product := none
    sentimentScore := none
    sentimentCategory := none
    buckets := [] }

/-- A pending post of a different tenant. -/
def exampleOtherTenant : RedditPost :=
  { examplePending with id := "p3", userId := some "u2" }

/-- Run state holding one post inside the failed batch and one outside it. -/
def exampleRunState : RunState :=
  { store := [examplePending, examplePost], processedCount := 0, errorCount := 0, classifierCalls := 0 }

def exampleBatch : List String := ["p2"]

/-- Empty run state for the batch-loop counterexample. -/
def emptyRunState : RunState :=
  { store := [], processedCount := 0, errorCount := 0, classifierCalls := 0 }

/-- Five batches whose outcomes alternate failure and success: three total
failures, never three consecutive ones. -/
def alternatingPlan : List (List String × BatchOutcome) :=
  [(["p2"], .err), (["p2"], .ok []), (["p2"], .err), (["p2"], .ok []), (["p2"], .err)]

/-- Classifier result with one suggestion below and one above the 0.6
acceptance threshold. -/
def scenarioBoth : ClassResult :=
  { id := "p2"
    product := "Laptop"
    category := "Battery"
    sameIssuesCount := 0
    sameDeviceCount := 0
    solutionsCount := 0
    updateIssueMention := 0
    updateResolvedMention := 0
    sentimentScore := 2
    sentimentCategory := "Neutral"
    bucketSuggestions :=
      [ { bucketId := "bucket55", confidence := 11/20 },
        { bucketId := "bucket75", confidence := 3/4 } ] }

/-- Classifier result with only the 0.55-confidence suggestion. -/
def scenario55 : ClassResult :=
  { scenarioBoth with bucketSuggestions := [{ bucketId := "bucket55", confidence := 11/20 }] }

/-- Preferences of a tenant with notifications enabled, one recipient and a
24-hour window. -/
def examplePreferences : Preferences :=
  { id := 1
    userId := some "u1"
    orgId := none
    ingestionActive := false
    commentGrowthThreshold := 2
    emails := ["team@example.com"]
    enabled := true
    issueThreshold := 1
    lastNotified := none
    sentimentThreshold := 0
    timeWindow := 24
    triggerCategorization := false
    volumeThresholdMultiplier := 3/2 }

/-- Tenant state on which the notification worker sends at time 86400000 ms
(volume trigger: one post in the window, `issueThreshold` 1). -/
def cexSendState : TenantState :=
  { preferences := examplePreferences, history := [] }

def cexPosts : List RedditPost := [examplePost]

/-- Job-processor state with a 24-hour window whose `lastNotified` is the
epoch and whose sentiment threshold makes every evaluation send. -/
def cexJobState : JobState :=
  { preferences := { examplePreferences with issueThreshold := 5, lastNotified := some 0 }
    history := []
    windowMetrics := [] }

/-- Two posts whose comment counts sum to 20, for the comment-growth
comparison. -/
def cexGrowthPosts : List RedditPost :=
  [ { examplePost with id := "g1", numComments := 12 },
    { examplePost with id := "g2", numComments := 8 } ]

/-- Preferences whose `commentGrowthThreshold` is 15. -/
def cexGrowthPrefs : Preferences :=
  { examplePreferences with commentGrowthThreshold := 15 }

/-- Current-window posts for the windowed metrics route fixture. -/
def cexMetricsCurrent : List RedditPost := [examplePost]

/-- The single trend entry those posts produce. -/
def cexMetricsEntry : TopCategoryEntry :=
  { category := "Battery", count := 1, previousCount := 0, percentageChange := 100 }

/-! ## Helper lemmas -/

theorem forall₂_map_self {α : Type} {R : α → α → Prop} (f : α → α) :
    ∀ l : List α, (∀ a ∈ l, R a (f a)) → List.Forall₂ R l (l.map f)
  | [], _ => List.Forall₂.nil
  | a :: as, h =>
      List.Forall₂.cons (h a (List.mem_cons_self a as))
        (forall₂_map_self f as (fun x hx => h x (List.mem_cons_of_mem a hx)))

theorem forall₂_buckets_trans {l₁ l₂ l₃ : List RedditPost}
    (h₁ : List.Forall₂ (fun p q => ∀ b, b ∈ p.buckets → b ∈ q.buckets) l₁ l₂)
    (h₂ : List.Forall₂ (fun p q => ∀ b, b ∈ p.buckets → b ∈ q.buckets) l₂ l₃) :
    List.Forall₂ (fun p q => ∀ b, b ∈ p.buckets → b ∈ q.buckets) l₁ l₃ := by
  induction h₁ generalizing l₃ with
  | nil => cases h₂; exact .nil
  | cons hab _ ih =>
      cases h₂ with
      | cons hbc h' => exact .cons (fun b hb => hbc b (hab b hb)) (ih h')

theorem map_key_of_key_preserving {α β : Type} (f : α → α) (key : α → β)
    (h : ∀ a, key (f a) = key a) :
    ∀ l : List α, (l.map f).map key = l.map key := by
  intro l
  induction l with
  | nil => rfl
  | cons a as ih => simp [h, ih]

theorem mem_acceptedBuckets {b : String} {l : List BucketSuggestion} :
    b ∈ acceptedBuckets l ↔ ∃ s ∈ l, s.bucketId = b ∧ (6 : ℚ)/10 < s.confidence := by
  simp only [acceptedBuckets, List.mem_map, List.mem_filter, decide_eq_true_eq]
  constructor
  · rintro ⟨s, ⟨hs, hc⟩, hb⟩
    exact ⟨s, hs, hb, hc⟩
  · rintro ⟨s, hs, hb, hc⟩
    exact ⟨s, ⟨hs, hc⟩, hb⟩

/-! ## Claims about the classifier batch runner -/

/-- C10: applying a batch of classification results never removes a bucket
membership: positionally, every post's bucket set after the transaction
contains its bucket set before (the update only connects accepted
suggestions). -/
theorem classification_never_removes_bucket (store : List RedditPost)
    (results : List ClassResult) :
    List.Forall₂ (fun p q => ∀ b, b ∈ p.buckets → b ∈ q.buckets)
      store (applyBatch store results) := by
  induction results generalizing store with
  | nil => exact List.forall₂_same.2 (fun p _ b hb => hb)
  | cons r rs ih =>
      have hstep : List.Forall₂ (fun p q => ∀ b, b ∈ p.buckets → b ∈ q.buckets)
          store (store.map (fun p => if p.id = r.id then applyResult p r else p)) := by
        apply forall₂_map_self
        intro p _ b hb
        by_cases hp : p.id = r.id
        · simp only [hp, if_true, applyResult, List.mem_append]
          exact Or.inl hb
        · simpa [hp] using hb
      have hrw : applyBatch store (r :: rs) =
          applyBatch (store.map (fun p => if p.id = r.id then applyResult p r else p)) rs := by
        simp [applyBatch]
      rw [hrw]
      exact forall₂_buckets_trans hstep (ih _)

/-- C5: a bucket suggestion is committed as a membership exactly when its
confidence exceeds 0.6, and `addedToBucketByAI` is set exactly when some
suggestion exceeds 0.6; in particular a 0.55 suggestion is never committed
and a 0.75 suggestion is committed and sets the flag. -/
theorem bucket_confidence_threshold :
    (∀ (p : RedditPost) (r : ClassResult),
      ((applyResult p r).addedToBucketByAI = true ↔
        ∃ s ∈ r.bucketSuggestions, (6 : ℚ)/10 < s.confidence) ∧
      ∀ b : String, b ∈ (applyResult p r).buckets ↔
        b ∈ p.buckets ∨ ∃ s ∈ r.bucketSuggestions, s.bucketId = b ∧ (6 : ℚ)/10 < s.confidence) ∧
    (applyResult examplePending scenarioBoth).buckets = ["bucket75"] ∧
    (applyResult examplePending scenarioBoth).addedToBucketByAI = true ∧
    (applyResult examplePending scenario55).buckets = [] ∧
    (applyResult examplePending scenario55).addedToBucketByAI = false := by
  refine ⟨fun p r => ⟨?_, fun b => ?_⟩, by decide, by decide, by decide, by decide⟩
  · simp [applyResult, List.any_eq_true]
  · have hbuckets : (applyResult p r).buckets =
        p.buckets ++ (acceptedBuckets r.bucketSuggestions).filter (fun b => b ∉ p.buckets) := rfl
    rw [hbuckets, List.mem_append, List.mem_filter]
    by_cases hb : b ∈ p.buckets
    · simp [hb]
    · simp [hb, mem_acceptedBuckets]

/-- C2: when a classification batch throws, the results transaction applies
nothing, so every item of the batch keeps `needsProcessing = true` and gets
its `processingPriority` incremented by exactly 1, and posts outside the
batch are untouched. -/
theorem failed_batch_leaves_unprocessed (st : RunState) (batch : List String)
    (hpending : ∀ p ∈ st.store, p.id ∈ batch → p.needsProcessing = true) :
    List.Forall₂ (fun p q =>
        (p.id ∈ batch →
          q.needsProcessing = true ∧ q.processingPriority = p.processingPriority + 1) ∧
        (p.id ∉ batch → q = p))
      st.store ((runBatchesAux [(batch, BatchOutcome.err)] st).1).store := by
  have hstore : ((runBatchesAux [(batch, BatchOutcome.err)] st).1).store =
      incrementPriority st.store batch := by
    by_cases h3 : st.errorCount + 1 ≥ 3 <;>
      simp [runBatchesAux, h3]
  rw [hstore]
  unfold incrementPriority
  apply forall₂_map_self
  intro p hp
  by_cases hmem : p.id ∈ batch
  · refine ⟨fun _ => ?_, fun h => absurd hmem h⟩
    simp [hmem, hpending p hp hmem]
  · simp [hmem]

/-- Witness for C2 at a concrete store with one post in the batch and one
outside it. -/
theorem failed_batch_leaves_unprocessed_witness :
    (∀ p ∈ exampleRunState.store, p.id ∈ exampleBatch → p.needsProcessing = true) ∧
    List.Forall₂ (fun p q =>
        (p.id ∈ exampleBatch →
          q.needsProcessing = true ∧ q.processingPriority = p.processingPriority + 1) ∧
        (p.id ∉ exampleBatch → q = p))
      exampleRunState.store
      ((runBatchesAux [(exampleBatch, BatchOutcome.err)] exampleRunState).1).store :=
  ⟨by decide, failed_batch_leaves_unprocessed exampleRunState exampleBatch (by decide)⟩

theorem runBatches_abort_count :
    ∀ (plan : List (List String × BatchOutcome)) (st : RunState),
      st.errorCount < 3 →
      ((runBatchesAux plan st).2 = RunStatus.aborted ↔
        3 ≤ st.errorCount + countFailures plan) := by
  intro plan
  induction plan with
  | nil =>
      intro st h
      simp only [runBatchesAux, countFailures, List.map_nil, List.countP_nil, Nat.add_zero]
      constructor
      · intro hcontra; cases hcontra
      · intro hge; omega
  | cons step rest ih =>
      intro st h
      obtain ⟨batch, outcome⟩ := step
      cases outcome with
      | ok results =>
          have hcount : countFailures ((batch, BatchOutcome.ok results) :: rest) =
              countFailures rest := by
            simp [countFailures, List.countP_cons, isFailedOutcome]
          rw [hcount]
          exact ih _ h
      | err =>
          have hcount : countFailures ((batch, BatchOutcome.err) :: rest) =
              countFailures rest + 1 := by
            simp [countFailures, List.countP_cons, isFailedOutcome]
          rw [hcount]
          by_cases habort : st.errorCount + 1 ≥ 3
          · have hrun : (runBatchesAux ((batch, BatchOutcome.err) :: rest) st).2 =
                RunStatus.aborted := by
              simp [runBatchesAux, habort]
            rw [hrun]
            exact iff_of_true rfl (by omega)
          · have hrun : runBatchesAux ((batch, BatchOutcome.err) :: rest) st =
                runBatchesAux rest { st with
                  store := incrementPriority st.store batch
                  errorCount := st.errorCount + 1
                  classifierCalls := st.classifierCalls + 1 } := by
              simp [runBatchesAux, habort]
            rw [hrun]
            have hlt : st.errorCount + 1 < 3 := by omega
            have hih := ih { st with
              store := incrementPriority st.store batch
              errorCount := st.errorCount + 1
              classifierCalls := st.classifierCalls + 1 } hlt
            simp only at hih
            rw [hih]
            omega

/-- C7 (amended): the run aborts exactly when the cumulative number of
failed batches reaches 3 — `errorCount` is never reset by a successful
batch, so the three failures need not be consecutive. -/
theorem categorization_aborts_on_three_total_failures
    (plan : List (List String × BatchOutcome)) (st : RunState)
    (h : st.errorCount = 0) :
    ((runBatchesAux plan st).2 = RunStatus.aborted ↔ 3 ≤ countFailures plan) := by
  have := runBatches_abort_count plan st (by omega)
  rwa [h, Nat.zero_add] at this

/-- Witness for the amended C7 at the alternating failure/success plan. -/
theorem categorization_aborts_witness :
    emptyRunState.errorCount = 0 ∧
    ((runBatchesAux alternatingPlan emptyRunState).2 = RunStatus.aborted ↔
      3 ≤ countFailures alternatingPlan) :=
  ⟨by decide, categorization_aborts_on_three_total_failures alternatingPlan emptyRunState (by decide)⟩

/-- Counterexample to C7 as stated: a run whose failures alternate with
successes (so no 3 consecutive batches fail) still aborts, because the error
counter is cumulative. -/
theorem consecutive_failures_counterexample :
    (runBatchesAux alternatingPlan emptyRunState).2 = RunStatus.aborted ∧
    threeConsecutiveFailures (alternatingPlan.map Prod.snd) = false := by
  decide

/-- C4: with zero configured categories, one categorization run marks every
pending post of the tenant Noise/Noise with `needsProcessing = false`,
touches no other post, performs zero classifier calls and returns success
with the `no_categories` status. -/
theorem no_categories_marks_all_noise (store : List RedditPost) (t : Target)
    (outcomes : List BatchOutcome)
    (feedbackCategories : List FeedbackCategory) (productCategories : List ProductCategory)
    (hfc : feedbackCategories = []) (hpc : productCategories = []) :
    ∃ out : RunOutput,
      categorizationRun store t feedbackCategories productCategories outcomes = Except.ok out ∧
      out.statusTag = "no_categories" ∧
      out.classifierCalls = 0 ∧
      List.Forall₂ (fun p q =>
          (matchesTarget p t = true ∧ p.needsProcessing = true →
            q.category = some "Noise" ∧ q.product = some "Noise" ∧ q.needsProcessing = false) ∧
          (¬(matchesTarget p t = true ∧ p.needsProcessing = true) → q = p))
        store out.store := by
  subst hfc hpc
  refine ⟨{ store := markNoise store t, statusTag := "no_categories", classifierCalls := 0 },
    by simp [categorizationRun], rfl, rfl, ?_⟩
  unfold markNoise
  apply forall₂_map_self
  intro p _
  by_cases hmatch : matchesTarget p t = true ∧ p.needsProcessing = true
  · refine ⟨fun _ => ?_, fun hcontra => absurd hmatch hcontra⟩
    simp [hmatch.1, hmatch.2]
  · refine ⟨fun h => absurd h hmatch, fun _ => ?_⟩
    have : ¬(matchesTarget p t ∧ p.needsProcessing) := by
      simpa using hmatch
    simp [this]

/-- Witness for C4: a tenant with one pending post, another tenant's pending
post and an already-classified post. -/
theorem no_categories_marks_all_noise_witness :
    ([] : List FeedbackCategory) = [] ∧ ([] : List ProductCategory) = [] ∧
    ∃ out : RunOutput,
      categorizationRun [examplePending, exampleOtherTenant, examplePost] (Target.user "u1")
        [] [] [] = Except.ok out ∧
      out.statusTag = "no_categories" ∧
      out.classifierCalls = 0 ∧
      List.Forall₂ (fun p q =>
          (matchesTarget p (Target.user "u1") = true ∧ p.needsProcessing = true →
            q.category = some "Noise" ∧ q.product = some "Noise" ∧ q.needsProcessing = false) ∧
          (¬(matchesTarget p (Target.user "u1") = true ∧ p.needsProcessing = true) → q = p))
        [examplePending, exampleOtherTenant, examplePost] out.store :=
  ⟨rfl, rfl, no_categories_marks_all_noise [examplePending, exampleOtherTenant, examplePost]
    (Target.user "u1") [] [] [] rfl rfl⟩

/-! ## Claims about the content upsert engine -/

/-- C3 (amended): upserting an existing external id never duplicates it; for
a comment the second upsert refreshes only `score` and `lastUpdated`; for a
post the second upsert overwrites every fetched field — including `author`
and `createdUtc` — and resets the classification outputs and the processing
state (`needsProcessing = true`, `processingPriority = 0`), leaving only the
fields absent from the ingestion payload (buckets, `addedToBucketByAI`)
untouched. -/
theorem upsert_same_id_semantics (store : List RedditPost) (cstore : List RedditComment)
    (post : RedditPostData) (c : RedditCommentData) (uid : String) (oid : Option String)
    (pid : String) (now : Int) :
    ((store.map RedditPost.id).Nodup →
      ((upsertPost store post uid oid now).map RedditPost.id).Nodup) ∧
    ((cstore.map RedditComment.id).Nodup →
      ((upsertComment cstore pid c now).map RedditComment.id).Nodup) ∧
    (cstore.any (fun q => q.id = c.id) = true →
      List.Forall₂ (fun q q' =>
          (q.id = c.id → q' = { q with score := c.score, lastUpdated := now }) ∧
          (q.id ≠ c.id → q' = q))
        cstore (upsertComment cstore pid c now)) ∧
    (store.any (fun q => q.id = post.id) = true →
      List.Forall₂ (fun q q' =>
          (q.id = post.id →
            q'.author = post.authorName ∧ q'.createdUtc = post.created_utc ∧
            q'.title = post.title ∧ q'.content = post.selftext ∧
            q'.score = post.score ∧ q'.numComments = post.num_comments ∧
            q'.lastUpdated = now ∧
            q'.category = none ∧ q'.product = none ∧ q'.sentimentScore = none ∧
            q'.sentimentCategory = none ∧ q'.needsProcessing = true ∧
            q'.processingPriority = 0 ∧
            q'.buckets = q.buckets ∧ q'.addedToBucketByAI = q.addedToBucketByAI) ∧
          (q.id ≠ post.id → q' = q))
        store (upsertPost store post uid oid now)) := by
  refine ⟨?_, ?_, ?_, ?_⟩
  · intro hnodup
    by_cases hpresent : store.any (fun q => q.id = post.id)
    · rw [upsertPost, if_pos hpresent,
        map_key_of_key_preserving _ RedditPost.id (fun q => by split <;> rfl)]
      exact hnodup
    · rw [upsertPost, if_neg hpresent]
      simp only [List.any_eq_true, decide_eq_true_eq, not_exists, not_and] at hpresent
      simp only [List.map_append, List.map_cons, List.map_nil]
      rw [List.nodup_append]
      refine ⟨hnodup, List.nodup_singleton _, ?_⟩
      intro a ha
      simp only [List.mem_map] at ha
      obtain ⟨q, hq, rfl⟩ := ha
      simp only [List.mem_singleton]
      exact fun h => hpresent q hq h
  · intro hnodup
    by_cases hpresent : cstore.any (fun q => q.id = c.id)
    · rw [upsertComment, if_pos hpresent,
        map_key_of_key_preserving _ RedditComment.id (fun q => by split <;> rfl)]
      exact hnodup
    · rw [upsertComment, if_neg hpresent]
      simp only [List.any_eq_true, decide_eq_true_eq, not_exists, not_and] at hpresent
      simp only [List.map_append, List.map_cons, List.map_nil]
      rw [List.nodup_append]
      refine ⟨hnodup, List.nodup_singleton _, ?_⟩
      intro a ha
      simp only [List.mem_map] at ha
      obtain ⟨q, hq, rfl⟩ := ha
      simp only [List.mem_singleton]
      exact fun h => hpresent q hq h
  · intro hpresent
    rw [upsertComment, if_pos hpresent]
    apply forall₂_map_self
    intro q _
    by_cases hid : q.id = c.id
    · exact ⟨fun _ => by simp [hid], fun h => absurd hid h⟩
    · exact ⟨fun h => absurd h hid, fun _ => by simp [hid]⟩
  · intro hpresent
    rw [upsertPost, if_pos hpresent]
    apply forall₂_map_self
    intro q _
    by_cases hid : q.id = post.id
    · refine ⟨fun _ => ?_, fun h => absurd hid h⟩
      simp [hid]
    · exact ⟨fun h => absurd h hid, fun _ => by simp [hid]⟩

/-- Witness for the amended C3 at a one-post and one-comment store. -/
theorem upsert_same_id_semantics_witness :
    ([examplePost].any (fun q => q.id = exampleFetched.id) = true) ∧
    ([exampleComment].any (fun q => q.id = exampleFetchedComment.id) = true) ∧
    List.Forall₂ (fun q q' =>
        (q.id = exampleFetchedComment.id →
          q' = { q with score := exampleFetchedComment.score, lastUpdated := 500 }) ∧
        (q.id ≠ exampleFetchedComment.id → q' = q))
      [exampleComment] (upsertComment [exampleComment] "p1" exampleFetchedComment 500) ∧
    List.Forall₂ (fun q q' =>
        (q.id = exampleFetched.id →
          q'.author = exampleFetched.authorName ∧ q'.createdUtc = exampleFetched.created_utc ∧
          q'.title = exampleFetched.title ∧ q'.content = exampleFetched.selftext ∧
          q'.score = exampleFetched.score ∧ q'.numComments = exampleFetched.num_comments ∧
          q'.lastUpdated = 500 ∧
          q'.category = none ∧ q'.product = none ∧ q'.sentimentScore = none ∧
          q'.sentimentCategory = none ∧ q'.needsProcessing = true ∧
          q'.processingPriority = 0 ∧
          q'.buckets = q.buckets ∧ q'.addedToBucketByAI = q.addedToBucketByAI) ∧
        (q.id ≠ exampleFetched.id → q' = q))
      [examplePost] (upsertPost [examplePost] exampleFetched "u1" none 500) :=
  ⟨by decide, by decide,
    (upsert_same_id_semantics [examplePost] [exampleComment] exampleFetched
      exampleFetchedComment "u1" none "p1" 500).2.2.1 (by decide),
    (upsert_same_id_semantics [examplePost] [exampleComment] exampleFetched
      exampleFetchedComment "u1" none "p1" 500).2.2.2 (by decide)⟩

/-- Counterexample to C3 as stated: re-upserting post p1 changes its stored
author (alice to bob) and its `createdUtc`, resets its category to null and
flips it back to `needsProcessing = true` — the claim said author/createdUtc
stay and classification and processing state are untouched. -/
theorem upsert_overwrites_counterexample :
    (upsertPost [examplePost] exampleFetched "u1" none 500).map RedditPost.author = ["bob"] ∧
    examplePost.author = "alice" ∧
    (upsertPost [examplePost] exampleFetched "u1" none 500).map RedditPost.createdUtc = [200] ∧
    examplePost.createdUtc = 100 ∧
    (upsertPost [examplePost] exampleFetched "u1" none 500).map RedditPost.category = [none] ∧
    examplePost.category = some "Battery" ∧
    (upsertPost [examplePost] exampleFetched "u1" none 500).map RedditPost.needsProcessing
      = [true] ∧
    examplePost.needsProcessing = false := by
  decide

/-! ## Claims about the threshold alerting engine -/

theorem workerTick_of_not_send (s : TenantState) (tenantPosts : List RedditPost) (nowMs : Int)
    (h : (notificationWorkerTick s tenantPosts nowMs).2 = false) :
    (notificationWorkerTick s tenantPosts nowMs).1 = s := by
  simp only [notificationWorkerTick] at h ⊢
  split_ifs at h ⊢ <;> simp_all

theorem workerTick_of_send (s : TenantState) (tenantPosts : List RedditPost) (nowMs : Int)
    (h : (notificationWorkerTick s tenantPosts nowMs).2 = true) :
    preferencesWindowMs s.preferences ≤ nowMs - lastNotifiedDefault s.preferences ∧
    (notificationWorkerTick s tenantPosts nowMs).1.preferences.lastNotified = some nowMs ∧
    (notificationWorkerTick s tenantPosts nowMs).1.preferences.timeWindow
      = s.preferences.timeWindow := by
  simp only [notificationWorkerTick] at h ⊢
  split_ifs at h ⊢ with h1 h2 h3
  exact ⟨by omega, rfl, rfl⟩

theorem workerRun_separated (w : Int) (hw : 0 ≤ w) :
    ∀ (ticks : List (Int × List RedditPost)) (s : TenantState),
      preferencesWindowMs s.preferences = w →
      (notificationWorkerRun s ticks).2.Pairwise (fun a b => w ≤ b - a) ∧
      ∀ t ∈ (notificationWorkerRun s ticks).2, w ≤ t - lastNotifiedDefault s.preferences := by
  intro ticks
  induction ticks with
  | nil => intro s _; simp [notificationWorkerRun]
  | cons tick rest ih =>
      intro s hs
      obtain ⟨nowMs, tenantPosts⟩ := tick
      by_cases hsend : (notificationWorkerTick s tenantPosts nowMs).2 = true
      · obtain ⟨hgate, hlast, htw⟩ := workerTick_of_send s tenantPosts nowMs hsend
        have hs' : preferencesWindowMs (notificationWorkerTick s tenantPosts nowMs).1.preferences = w := by
          rw [preferencesWindowMs, htw, ← hs, preferencesWindowMs]
        have hlast' :
            lastNotifiedDefault (notificationWorkerTick s tenantPosts nowMs).1.preferences
              = nowMs := by
          rw [lastNotifiedDefault, hlast]; rfl
        obtain ⟨hpw, hbound⟩ := ih (notificationWorkerTick s tenantPosts nowMs).1 hs'
        have hrun : (notificationWorkerRun s ((nowMs, tenantPosts) :: rest)).2 =
            nowMs :: (notificationWorkerRun (notificationWorkerTick s tenantPosts nowMs).1 rest).2 := by
          simp [notificationWorkerRun, hsend]
        rw [hrun]
        constructor
        · refine List.Pairwise.cons (fun b hb => ?_) hpw
          have := hbound b hb
          rw [hlast'] at this
          omega
        · intro t ht
          rcases List.mem_cons.1 ht with rfl | ht'
          · rw [hs] at hgate; omega
          · have h1 := hbound t ht'
            rw [hlast'] at h1
            rw [hs] at hgate
            omega
      · have hb : (notificationWorkerTick s tenantPosts nowMs).2 = false := by
          simpa using hsend
        have hstate := workerTick_of_not_send s tenantPosts nowMs hb
        have hrun : (notificationWorkerRun s ((nowMs, tenantPosts) :: rest)).2 =
            (notificationWorkerRun s rest).2 := by
          simp only [notificationWorkerRun]
          rw [hb, hstate]
          simp
        rw [hrun]
        exact ih s hs

/-- C1 (amended): the cooldown property holds for the notification worker
(the handler on the "notifications" queue): a tick sends only when the time
elapsed since `lastNotified` is at least the configured window, every send
sets `lastNotified` to the evaluation time, and over any sequence of ticks
any two send times are at least one window apart. The `notification-job`
processor does not have this property (see the counterexample). -/
theorem notification_worker_cooldown (s : TenantState)
    (ticks : List (Int × List RedditPost))
    (hw : 0 ≤ preferencesWindowMs s.preferences) :
    (∀ (tenantPosts : List RedditPost) (nowMs : Int),
      (notificationWorkerTick s tenantPosts nowMs).2 = true →
        preferencesWindowMs s.preferences ≤ nowMs - lastNotifiedDefault s.preferences ∧
        (notificationWorkerTick s tenantPosts nowMs).1.preferences.lastNotified = some nowMs) ∧
    (notificationWorkerRun s ticks).2.Pairwise
      (fun a b => preferencesWindowMs s.preferences ≤ b - a) := by
  constructor
  · intro tenantPosts nowMs hsend
    obtain ⟨hgate, hlast, -⟩ := workerTick_of_send s tenantPosts nowMs hsend
    exact ⟨hgate, hlast⟩
  · exact (workerRun_separated (preferencesWindowMs s.preferences) hw ticks s rfl).1

/-- Witness for the amended C1: a 24-hour-window tenant observed over two
ticks one hour apart, the first of which sends. -/
theorem notification_worker_cooldown_witness :
    0 ≤ preferencesWindowMs cexSendState.preferences ∧
    (notificationWorkerRun cexSendState
        [(86400000, cexPosts), (90000000, cexPosts)]).2.Pairwise
      (fun a b => preferencesWindowMs cexSendState.preferences ≤ b - a) :=
  ⟨by decide,
    (notification_worker_cooldown cexSendState
      [(86400000, cexPosts), (90000000, cexPosts)] (by decide)).2⟩

/-- Counterexample to C1 as stated: the `notification-job` processor has no
cooldown check, so with a 24-hour window and `lastNotified` at time 0 it
sends at the 1-hour tick, and again at the 2-hour tick — two notifications
one hour apart, each sent while less than one window had elapsed. -/
theorem notification_job_no_cooldown_counterexample :
    (notificationJobTick cexJobState [] 3600000).2 = true ∧
    3600000 - lastNotifiedDefault cexJobState.preferences
      < preferencesWindowMs cexJobState.preferences ∧
    (notificationJobTick cexJobState [] 3600000).1.preferences.lastNotified = some 3600000 ∧
    (notificationJobTick (notificationJobTick cexJobState [] 3600000).1 [] 7200000).2 = true ∧
    (7200000 - 3600000 : Int) < preferencesWindowMs cexJobState.preferences := by
  decide

/-- C8 (amended): when the notification worker sends, the NotificationRecord
append and the `lastNotified` update are two separate store writes executed
in that order (not one transaction): the final state is literally the fold of
the two writes, and executing only the first write yields a state in which
the record exists but `lastNotified` is unchanged. -/
theorem notification_commit_two_writes (s : TenantState)
    (tenantPosts : List RedditPost) (nowMs : Int)
    (hsend : (notificationWorkerTick s tenantPosts nowMs).2 = true) :
    (notificationWorkerTick s tenantPosts nowMs).1 =
      applyWrites s (notificationCommitWrites s.preferences
        (workerWindowPosts s.preferences tenantPosts nowMs) nowMs) ∧
    (applyWrites s ((notificationCommitWrites s.preferences
        (workerWindowPosts s.preferences tenantPosts nowMs) nowMs).take 1)).history =
      s.history ++ [workerNotificationRecord s.preferences
        (workerWindowPosts s.preferences tenantPosts nowMs)] ∧
    (applyWrites s ((notificationCommitWrites s.preferences
        (workerWindowPosts s.preferences tenantPosts nowMs) nowMs).take 1)).preferences.lastNotified
      = s.preferences.lastNotified := by
  refine ⟨?_, rfl, rfl⟩
  simp only [notificationWorkerTick] at hsend ⊢
  split_ifs at hsend ⊢
  rfl

/-- Witness for the amended C8 at a concrete sending state. -/
theorem notification_commit_two_writes_witness :
    (notificationWorkerTick cexSendState cexPosts 86400000).2 = true ∧
    ((notificationWorkerTick cexSendState cexPosts 86400000).1 =
      applyWrites cexSendState (notificationCommitWrites cexSendState.preferences
        (workerWindowPosts cexSendState.preferences cexPosts 86400000) 86400000) ∧
    (applyWrites cexSendState ((notificationCommitWrites cexSendState.preferences
        (workerWindowPosts cexSendState.preferences cexPosts 86400000) 86400000).take 1)).history =
      cexSendState.history ++ [workerNotificationRecord cexSendState.preferences
        (workerWindowPosts cexSendState.preferences cexPosts 86400000)] ∧
    (applyWrites cexSendState ((notificationCommitWrites cexSendState.preferences
        (workerWindowPosts cexSendState.preferences cexPosts 86400000)
          86400000).take 1)).preferences.lastNotified
      = cexSendState.preferences.lastNotified) :=
  ⟨by decide, notification_commit_two_writes cexSendState cexPosts 86400000 (by decide)⟩

/-- Counterexample to C8 as stated: the two writes are not atomic — at the
concrete sending tick, executing only the first write (the state an
execution failing between the two awaits leaves behind) shows the
NotificationRecord appended while `lastNotified` has not advanced. -/
theorem notification_commit_not_atomic_counterexample :
    (notificationWorkerTick cexSendState cexPosts 86400000).2 = true ∧
    (applyWrites cexSendState ((notificationCommitWrites cexSendState.preferences
        (workerWindowPosts cexSendState.preferences cexPosts 86400000)
          86400000).take 1)).history.length = cexSendState.history.length + 1 ∧
    (applyWrites cexSendState ((notificationCommitWrites cexSendState.preferences
        (workerWindowPosts cexSendState.preferences cexPosts 86400000)
          86400000).take 1)).preferences.lastNotified ≠ some 86400000 := by
  decide

/-! ## Claims about the comment growth trigger and the metrics routes -/

/-- C9 (amended): the two code paths evaluate comment growth differently —
`checkThresholds` compares the absolute total comment count against
`commentGrowthThreshold`, while `shouldSendNotification` compares the
current/previous growth rate (infinite when previous data is absent and the
current count positive) against the same threshold; with previous-window
data the worker trigger holds exactly when `current ≥ threshold × previous`,
and the two paths disagree, e.g. at current = 20 comments, previous = 10,
threshold = 15. -/
theorem comment_growth_two_definitions :
    (∀ current previous threshold : ℚ, 0 < previous →
      (growthRateAtLeast (calculateCommentGrowthRate current previous) threshold = true ↔
        threshold * previous ≤ current)) ∧
    categoryCommentGrowthExceeded cexGrowthPosts cexGrowthPrefs = true ∧
    sumNumComments cexGrowthPosts = 20 ∧
    growthRateAtLeast (calculateCommentGrowthRate 20 10)
      cexGrowthPrefs.commentGrowthThreshold = false := by
  refine ⟨?_, by decide, by decide, by decide⟩
  intro current previous threshold hp
  have hne : previous ≠ 0 := ne_of_gt hp
  rw [calculateCommentGrowthRate, if_neg hne, growthRateAtLeast]
  simp only [decide_eq_true_eq, ge_iff_le]
  exact le_div_iff₀ hp

/-- Witness for the amended C9, applying the ratio characterization at
current = 20, previous = 10, threshold = 15. -/
theorem comment_growth_two_definitions_witness :
    (0 : ℚ) < 10 ∧
    (growthRateAtLeast (calculateCommentGrowthRate 20 10) 15 = true ↔
      (15 : ℚ) * 10 ≤ 20) :=
  ⟨by norm_num, comment_growth_two_definitions.1 20 10 15 (by norm_num)⟩

/-- Counterexample to C9 as stated: at current total comments 20, previous
10, threshold 15, the claimed single definition (ratio when previous data
exists) does not fire and the worker path does not fire, but the
`checkThresholds` path fires — the two evaluation paths disagree with one
another and with the claimed definition. -/
theorem comment_growth_disagreement_counterexample :
    specCommentGrowthTrigger 20 10 15 = false ∧
    categoryCommentGrowthExceeded cexGrowthPosts cexGrowthPrefs = true ∧
    sumNumComments cexGrowthPosts = 20 ∧
    cexGrowthPrefs.commentGrowthThreshold = 15 ∧
    growthRateAtLeast (calculateCommentGrowthRate 20 10) 15 = false := by
  decide

theorem categoryCountsStep_pos (acc : List (String × Nat)) (p : RedditPost)
    (h : ∀ e ∈ acc, 0 < e.2) :
    ∀ e ∈ categoryCountsStep acc p, 0 < e.2 := by
  intro e he
  cases hcat : p.category with
  | none =>
      simp only [categoryCountsStep, hcat] at he
      exact h e he
  | some c =>
      simp only [categoryCountsStep, hcat] at he
      split at he
      · obtain ⟨d, hd, rfl⟩ := List.mem_map.1 he
        by_cases hc : (d.1 == c) = true
        · simp [hc]
        · simp only [hc, if_false]
          exact h d hd
      · rcases List.mem_append.1 he with hmem | hmem
        · exact h e hmem
        · simp only [List.mem_singleton] at hmem
          rw [hmem]
          exact Nat.one_pos

theorem categoryCounts_pos (posts : List RedditPost) :
    ∀ e ∈ categoryCounts posts, 0 < e.2 := by
  suffices h : ∀ acc : List (String × Nat), (∀ e ∈ acc, 0 < e.2) →
      ∀ e ∈ posts.foldl categoryCountsStep acc, 0 < e.2 by
    exact h [] (by simp)
  induction posts with
  | nil => intro acc hacc; simpa using hacc
  | cons p ps ih =>
      intro acc hacc
      rw [List.foldl_cons]
      exact ih (categoryCountsStep acc p) (categoryCountsStep_pos acc p hacc)

/-- C6 (amended): in the windowed metrics route, every emitted category has
a positive current count (the previous-0-current-0 case cannot occur in its
output), `percentageChange` is 100 whenever the previous count is 0, and
otherwise equals `(current - previous) / previous * 100`; the
stored-baseline route instead returns 0 whenever the stored previous count
is 0, regardless of the current count. -/
theorem windowed_percentage_change (currentPosts previousPosts : List RedditPost)
    (e : TopCategoryEntry)
    (he : e ∈ newRouteTopCategories currentPosts previousPosts) :
    0 < e.count ∧
    (e.previousCount = 0 → e.percentageChange = 100) ∧
    (0 < e.previousCount →
      e.percentageChange = (((e.count : ℚ) - e.previousCount) / e.previousCount) * 100) ∧
    ∀ storedCount newCount : Nat, storedCount = 0 →
      (routeTopCategoryEntry storedCount newCount).percentageChange = 0 := by
  unfold newRouteTopCategories at he
  obtain ⟨d, hd, rfl⟩ := List.mem_map.1 he
  have hdpos : 0 < d.2 := categoryCounts_pos currentPosts d (List.mem_of_mem_filter hd)
  refine ⟨hdpos, ?_, ?_, ?_⟩
  · intro h0
    simp only at h0
    simp [newRoutePercentageChange, h0]
  · intro hpos
    simp only at hpos
    simp [newRoutePercentageChange, Nat.pos_iff_ne_zero.1 hpos]
  · intro storedCount newCount h0
    simp [routeTopCategoryEntry, routePercentageChange, h0]

/-- Witness for the amended C6: a current window with one Battery post and
an empty previous window produce the single entry with percentageChange
100. -/
theorem windowed_percentage_change_witness :
    cexMetricsEntry ∈ newRouteTopCategories cexMetricsCurrent [] ∧
    (0 < cexMetricsEntry.count ∧
    (cexMetricsEntry.previousCount = 0 → cexMetricsEntry.percentageChange = 100) ∧
    (0 < cexMetricsEntry.previousCount →
      cexMetricsEntry.percentageChange =
        (((cexMetricsEntry.count : ℚ) - cexMetricsEntry.previousCount) /
          cexMetricsEntry.previousCount) * 100) ∧
    ∀ storedCount newCount : Nat, storedCount = 0 →
      (routeTopCategoryEntry storedCount newCount).percentageChange = 0) :=
  ⟨by decide, windowed_percentage_change cexMetricsCurrent [] cexMetricsEntry (by decide)⟩

/-- Counterexample to C6 as stated: in the stored-baseline route, a category
with stored previous count 0 and 5 new posts (current count 5 > 0) gets
`percentageChange` 0, not the claimed 100. -/
theorem route_percentage_change_counterexample :
    (routeTopCategoryEntry 0 5).previousCount = 0 ∧
    0 < (routeTopCategoryEntry 0 5).count ∧
    (routeTopCategoryEntry 0 5).percentageChange = 0 ∧
    (routeTopCategoryEntry 0 5).percentageChange ≠ 100 := by
  decide

end BuzzInsights
